import Mathlib

/-!
# SmartHire backend — verification of the specification against `src/app.py`

A shallow embedding of the Flask job-board backend in `src/app.py`.

Conventions used throughout:
* A JSON request field that may be absent, null, a number or a string is a
  `PyVal` (`data.get(k)` yields `PyVal.null` both for an absent key and an
  explicit JSON null, which Python cannot tell apart either).  Fields that the
  routes only ever treat as text (`name`, `email`, `phone`, `skills`,
  `skill`) are `Option String`, `Option.none` standing for absent-or-null.
* Python truthiness (`not x`, `x or y`) is modelled by `PyVal.truthy` /
  `optTruthy` / `pyOr` / `pyOrS`.
* The sqlite tables are Lean lists of structures; `AUTOINCREMENT` is the
  successor of the largest id in the table.
* A route that lets a Python exception escape (an uncaught `ValueError`,
  which Flask turns into an HTTP 500) yields `HttpResp.crash`.
* String helpers (`pyLower`, `pyStrip`, `pyIn`, `pySplitComma`,
  `pyParseInt`) model the CPython primitives the source calls
  (`str.lower`, `str.strip`, `in`, `str.split(",")`, `int(...)`) on the
  ASCII inputs this system handles; they are written as structural
  recursion over `String.data` so the kernel can evaluate them.
-/

namespace SmartHire

/-- A Python/JSON scalar as the routes see it: `null` is both an absent key
and JSON null (`dict.get` returns `None` for either). -/
inductive PyVal where
  | null
  | int (n : Int)
  | str (s : String)
deriving DecidableEq, Repr

/-- Python truthiness of a scalar: `None`, `0` and `""` are falsy. -/
def PyVal.truthy : PyVal → Bool
  | PyVal.null => false
  | PyVal.int n => n != 0
  | PyVal.str s => s != ""

/-- Python truthiness of an optional string (`None` and `""` are falsy). -/
def optTruthy : Option String → Bool
  | Option.none => false
  | Option.some s => s != ""

/-- Python `v or d` on scalars: `v` when truthy, else `d`. -/
def pyOr (v d : PyVal) : PyVal := if v.truthy then v else d

/-- Python `v or d` where `v` is an optional string and `d` a string. -/
def pyOrS (v : Option String) (d : String) : String :=
  match v with
  | Option.none => d
  | Option.some s => if s != "" then s else d

/-- Python `str.strip()`: drop whitespace from both ends. -/
def pyStrip (s : String) : String :=
  String.mk (((s.data.dropWhile Char.isWhitespace).reverse.dropWhile
    Char.isWhitespace).reverse)

/-- Python `str.lower()` (ASCII case mapping, which covers this system's data). -/
def pyLower (s : String) : String := String.mk (s.data.map Char.toLower)

/-- Contiguous-sublist test on character lists, written structurally. -/
def charsHasInfix (need : List Char) : List Char → Bool
  | [] => need.isEmpty
  | c :: t => need.isPrefixOf (c :: t) || charsHasInfix need t

/-- Python `need in hay` on strings: contiguous substring. -/
def pyIn (need hay : String) : Bool := charsHasInfix need.data hay.data

/-- Numeric value of a decimal digit character. -/
def digitVal (c : Char) : Nat := c.toNat - 48

/-- Value of a non-empty list of decimal digits. -/
def decimalVal (cs : List Char) : Nat :=
  cs.foldl (fun a c => a * 10 + digitVal c) 0

/-- Python `int(s)` on a string: optional surrounding whitespace, an optional
sign, then at least one decimal digit; anything else raises `ValueError`
(`Option.none` here).  Digit-group underscores are not modelled. -/
def pyParseInt (s : String) : Option Int :=
  match (pyStrip s).data with
  | [] => Option.none
  | c :: rest =>
    if c = '-' then
      if !rest.isEmpty && rest.all Char.isDigit
      then Option.some (-(decimalVal rest : Int)) else Option.none
    else if c = '+' then
      if !rest.isEmpty && rest.all Char.isDigit
      then Option.some ((decimalVal rest : Int)) else Option.none
    else
      if (c :: rest).all Char.isDigit
      then Option.some ((decimalVal (c :: rest) : Int)) else Option.none

/-- Python `int(v)` on a scalar: ints pass through, strings are parsed,
`None` (and a parse failure) raises — `Except.error ()`. -/
def pyToInt : PyVal → Except Unit Int
  | PyVal.int n => Except.ok n
  | PyVal.str s =>
      match pyParseInt s with
      | Option.some n => Except.ok n
      | Option.none => Except.error ()
  | PyVal.null => Except.error ()

/-- SQLite INTEGER column affinity on an inserted value: a text value that
reads as an integer is stored as that integer; other values are stored
unchanged (`job_id INTEGER` in the `applications` schema). -/
def intAffinity (v : PyVal) : PyVal :=
  match v with
  | PyVal.str s =>
      match pyParseInt s with
      | Option.some n => PyVal.int n
      | Option.none => v
  | _ => v

/-- Python `"A,B,C".split(",")` on character lists: always at least one
group, a separator at either end giving an empty group. -/
def splitCommaChars : List Char → List (List Char)
  | [] => [[]]
  | c :: t =>
    match splitCommaChars t with
    | [] => [[]]
    | g :: gs => if c = ',' then [] :: (g :: gs) else (c :: g) :: gs

/-- Python `s.split(",")`. -/
def pySplitComma (s : String) : List String :=
  (splitCommaChars s.data).map String.mk

/-- Python's f-string rendering of an optional text column: SQL `NULL`
(Python `None`) prints as `"None"`. -/
def pyShowOptStr : Option String → String
  | Option.some s => s
  | Option.none => "None"

/-- A row of the `jobs` table (`app.py` lines 22-29).  `title` is `NOT NULL`;
`location` and `skills` are nullable text; `experience` an integer. -/
structure Job where
  id : Int
  title : String
  location : Option String
  experience : Int
  skills : Option String
deriving DecidableEq, Repr

/-- A row of the `applications` table (`app.py` lines 35-45).  `job_id` keeps
whatever scalar the request sent (after INTEGER affinity); `status` has the
schema default `'Applied'`; `experience` is the already-coerced integer;
`skills` the already-defaulted text. -/
structure Application where
  id : Int
  job_id : PyVal
  name : Option String
  email : Option String
  phone : Option String
  experience : Int
  skills : String
  status : String
deriving DecidableEq, Repr

/-- The three demo rows `seed_jobs` inserts into an empty table
(`app.py` lines 62-66), with the AUTOINCREMENT ids 1, 2, 3. -/
def seedRows : List Job :=
  [{ id := 1, title := "Python Backend Developer", location := Option.some "Chennai",
     experience := 1, skills := Option.some "Python,Flask,SQL" },
   { id := 2, title := "Frontend Developer", location := Option.some "Remote",
     experience := 0, skills := Option.some "HTML,CSS,JavaScript" },
   { id := 3, title := "Full Stack Engineer", location := Option.some "Bangalore",
     experience := 2, skills := Option.some "React,Node,SQL" }]

/-- `seed_jobs` (`app.py` lines 53-73): insert the three demo rows only when
`SELECT COUNT(*) FROM jobs` is 0, else leave the table alone. -/
def seed_jobs (jobs : List Job) : List Job :=
  if jobs.length = 0 then seedRows else jobs

/-- One element of the `GET /jobs` response (`app.py` lines 91-99). -/
structure JobOut where
  id : Int
  title : String
  location : Option String
  experience : Int
  skills : List String
deriving DecidableEq, Repr

/-- `get_jobs` (`app.py` lines 79-100): every row, with
`r[4].split(",") if r[4] else []` expanding the skills column. -/
def get_jobs (rows : List Job) : List JobOut :=
  rows.map fun r =>
    { id := r.id, title := r.title, location := r.location,
      experience := r.experience,
      skills := match r.skills with
        | Option.some s => if s != "" then pySplitComma s else []
        | Option.none => [] }

/-- The display string the search loop builds for one row (`app.py` lines
139-141): `f"{title} – {location} ({experience} yr exp)"` plus
`f" | Skills: {skills_text}"` when the raw skills text is truthy. -/
def displayOf (j : Job) : String :=
  let skillsText := pyOrS j.skills ""
  j.title ++ " – " ++ pyShowOptStr j.location ++ " (" ++ toString j.experience
    ++ " yr exp)"
    ++ (if skillsText != "" then " | Skills: " ++ skillsText else "")

/-- The `for` loop of `search_jobs` (`app.py` lines 131-142) over the fetched
rows, with `skill` already stripped and lowercased: keep a row's display
string when `not skill or (skill in title_lower) or (skill in skills_lower)`. -/
def searchLoop (skill : String) : List Job → List String
  | [] => []
  | j :: rest =>
    let titleLower := pyLower (pyOrS (Option.some j.title) "")
    let skillsText := pyOrS j.skills ""
    let skillsLower := pyLower skillsText
    if skill == "" || pyIn skill titleLower || pyIn skill skillsLower then
      displayOf j :: searchLoop skill rest
    else
      searchLoop skill rest

/-- `search_jobs` (`app.py` lines 103-151).  The whole body sits in
`try: ... except Exception: return jsonify({"jobs": []})`, and `jsonify`
without an explicit code is HTTP 200; the fallible part (the sqlite
round-trip) is passed in as `dbRead`.  Result: (status, jobs list). -/
def search_jobs (skillField : Option String) (dbRead : Except Unit (List Job)) :
    Nat × List String :=
  match dbRead with
  | Except.error _ => (200, [])
  | Except.ok rows =>
    let skill := pyLower (pyStrip (pyOrS skillField ""))
    (200, searchLoop skill rows)

/-- What a `POST /apply` request can carry (`app.py` lines 159-164). -/
structure ApplyReq where
  job_id : PyVal
  name : Option String
  email : Option String
  phone : Option String
  experience : PyVal
  skills : Option String
deriving DecidableEq, Repr

/-- A route outcome: a JSON body `{"success": _, "message": _}` with a status
code, or an uncaught Python exception (Flask's HTTP 500). -/
inductive HttpResp where
  | crash
  | json (status : Nat) (success : Bool) (message : String)
deriving DecidableEq, Repr

/-- `AUTOINCREMENT` for the `applications` table: one more than the largest
id present (1 on an empty table). -/
def nextId (apps : List Application) : Int :=
  (apps.map (fun a => a.id)).foldl max 0 + 1

/-- `apply_job` (`app.py` lines 154-185).  Line 163,
`experience = int(data.get("experience") or 0)`, runs *before* the
required-fields check of line 166, so a non-numeric experience raises
`ValueError` (`HttpResp.crash`) whatever the other fields hold.  The route
then rejects on `not job_id or not name or not email`, else inserts one row
(the status column takes the schema default `'Applied'`). -/
def apply_job (req : ApplyReq) (apps : List Application) :
    HttpResp × List Application :=
  match pyToInt (pyOr req.experience (PyVal.int 0)) with
  | Except.error _ => (HttpResp.crash, apps)
  | Except.ok exp =>
    if !req.job_id.truthy || !optTruthy req.name || !optTruthy req.email then
      (HttpResp.json 400 false "Required fields missing", apps)
    else
      (HttpResp.json 200 true "Application submitted successfully!",
        apps ++ [{ id := nextId apps, job_id := intAffinity req.job_id,
                   name := req.name, email := req.email, phone := req.phone,
                   experience := exp, skills := pyOrS req.skills "",
                   status := "Applied" }])

/-- One element of the `POST /my-applications` response (`app.py` 216-221). -/
structure AppOut where
  application_id : Int
  job_title : String
  status : String
deriving DecidableEq, Repr

/-- A `POST /my-applications` outcome: the 400 error body or the success
body with its list. -/
inductive MyAppsResp where
  | err (status : Nat) (success : Bool) (message : String)
  | ok (success : Bool) (applications : List AppOut)
deriving DecidableEq, Repr

/-- The SQL `a.job_id = j.id` comparison: sqlite compares the stored scalar
with the integer id; `NULL` and residual text compare unequal to any
integer. -/
def jobIdEq (v : PyVal) (id : Int) : Bool :=
  match v with
  | PyVal.int n => n == id
  | _ => false

/-- `my_applications` (`app.py` lines 188-224): reject with 400 when the
email field is falsy, else the inner join
`applications JOIN jobs ON a.job_id = j.id WHERE a.email = ?` projected to
`{application_id, job_title, status}`. -/
def my_applications (emailField : Option String) (apps : List Application)
    (jobs : List Job) : MyAppsResp :=
  if !optTruthy emailField then
    MyAppsResp.err 400 false "Email is required"
  else
    MyAppsResp.ok true
      ((apps.filter (fun a => a.email == emailField)).flatMap
        (fun a => (jobs.filter (fun j => jobIdEq a.job_id j.id)).map
          (fun j => { application_id := a.id, job_title := j.title,
                      status := a.status })))

/-- The list a `my_applications` outcome carries (empty for the 400 error). -/
def respApps : MyAppsResp → List AppOut
  | MyAppsResp.ok _ l => l
  | MyAppsResp.err _ _ _ => []

/-! ## Spec-side definitions

Each of these follows the specification's words, to be compared with the
definitions above, which follow the source. -/

/-- Variant A matching as the spec words it: the trimmed, lowercased skill
is empty, or a substring of the lowercased job title, or a substring of the
lowercased raw skills text. -/
def specMatchA (skillField : Option String) (j : Job) : Bool :=
  let s := pyLower (pyStrip (pyOrS skillField ""))
  s == "" || pyIn s (pyLower j.title) || pyIn s (pyLower (pyOrS j.skills ""))

/-- Skills expansion as the spec words it: an ordered sequence of strings,
empty when the stored field is empty or absent, else the comma-separated
pieces in order. -/
def specSkills : Option String → List String
  | Option.none => []
  | Option.some s => if s = "" then [] else pySplitComma s

/-- The `listApplicationsByEmail` join as the spec words it: each Application
row with the given email, paired with the Job whose id its `job_id` matches,
projected to `{applicationId, jobTitle, status}`. -/
def specJoin (e : String) (apps : List Application) (jobs : List Job) :
    List AppOut :=
  (apps.filter (fun a => a.email == Option.some e)).flatMap
    (fun a => (jobs.filter (fun j => jobIdEq a.job_id j.id)).map
      (fun j => { application_id := a.id, job_title := j.title,
                  status := a.status }))

/-- The C1 wording "absent, empty, or null" for the scalar `job_id` field:
it does not cover the integer 0. -/
def absentEmptyNull (v : PyVal) : Bool :=
  v == PyVal.null || v == PyVal.str ""

/-- The C1 wording "absent, empty, or null" for a text field. -/
def absentEmptyNullS (o : Option String) : Bool :=
  o == Option.none || o == Option.some ""

/-! ## Helper lemmas -/

/-- Python `t or ""` is the identity on a string that is already a string. -/
theorem pyOrS_some_empty (s : String) : pyOrS (Option.some s) "" = s := by
  by_cases h : s = "" <;> simp [pyOrS, h]

/-- The search loop accumulates exactly the display strings of the rows the
guard admits: it is a filter followed by a map. -/
theorem searchLoop_eq_filter_map (skill : String) : ∀ rows : List Job,
    searchLoop skill rows =
      (rows.filter (fun j =>
        skill == "" || pyIn skill (pyLower j.title)
          || pyIn skill (pyLower (pyOrS j.skills "")))).map displayOf
  | [] => rfl
  | j :: rest => by
    by_cases h : (skill == "" || pyIn skill (pyLower j.title)
        || pyIn skill (pyLower (pyOrS j.skills ""))) = true
    · simp only [searchLoop, pyOrS_some_empty, List.filter_cons, h,
        if_true, List.map_cons, searchLoop_eq_filter_map skill rest]
    · simp only [searchLoop, pyOrS_some_empty, List.filter_cons, h,
        if_false, Bool.false_eq_true, searchLoop_eq_filter_map skill rest]

/-! ## The claims -/

/-- Claim C2: over every stored job list, the Variant A search returns
precisely the display strings of the jobs whose lowercased title or raw
skills text contains the trimmed, lowercased skill (all jobs when it is
empty); over the seed data, `skill="python"` includes `"Python Backend
Developer"` and excludes `"Frontend Developer"`, and `skill=""` returns
every job's display string. -/
theorem searchA_matches_spec :
    (∀ (skillField : Option String) (rows : List Job),
      (search_jobs skillField (Except.ok rows)).2 =
        (rows.filter (specMatchA skillField)).map displayOf) ∧
    "Python Backend Developer – Chennai (1 yr exp) | Skills: Python,Flask,SQL"
      ∈ (search_jobs (Option.some "python") (Except.ok seedRows)).2 ∧
    "Frontend Developer – Remote (0 yr exp) | Skills: HTML,CSS,JavaScript"
      ∉ (search_jobs (Option.some "python") (Except.ok seedRows)).2 ∧
    (search_jobs (Option.some "") (Except.ok seedRows)).2 =
      seedRows.map displayOf := by
  refine ⟨fun skillField rows => ?_, by decide, by decide, by decide⟩
  show searchLoop (pyLower (pyStrip (pyOrS skillField ""))) rows = _
  rw [searchLoop_eq_filter_map]
  rfl

/-- Claim C3: the Variant A search returns HTTP 200 on every input, and when
the body's work fails with an internal error the response is 200 with the
empty job list. -/
theorem searchA_never_fails :
    (∀ (skillField : Option String) (dbRead : Except Unit (List Job)),
      (search_jobs skillField dbRead).1 = 200) ∧
    (∀ (skillField : Option String) (e : Unit),
      search_jobs skillField (Except.error e) = (200, [])) := by
  refine ⟨fun skillField dbRead => ?_, fun skillField e => rfl⟩
  cases dbRead <;> rfl

/-- Claim C7: listing expands each stored skills text by splitting on commas
— `"A,B,C"` round-trips to `["A","B","C"]` in order, and an empty or absent
stored field yields the empty sequence. -/
theorem jobs_skills_round_trip :
    (∀ rows : List Job,
      (get_jobs rows).map JobOut.skills =
        rows.map (fun r => specSkills r.skills)) ∧
    specSkills (Option.some "A,B,C") = ["A", "B", "C"] ∧
    specSkills (Option.some "") = [] ∧
    specSkills Option.none = [] := by
  refine ⟨fun rows => ?_, by decide, by decide, by decide⟩
  simp only [get_jobs, List.map_map]
  refine List.map_congr_left fun r _ => ?_
  cases h : r.skills with
  | none => simp [Function.comp, h, specSkills]
  | some s =>
    by_cases hs : s = "" <;> simp [Function.comp, h, specSkills, hs]

/-- Claim C8: seeding is idempotent — run any positive number of times from
an empty table it leaves exactly the three demo jobs with the three fixed
titles, and run any number of times it never leaves more than 3 rows. -/
theorem seed_jobs_idempotent :
    (∀ n : Nat, seed_jobs^[n + 1] [] = seedRows) ∧
    (seed_jobs^[1] []).map Job.title =
      ["Python Backend Developer", "Frontend Developer",
       "Full Stack Engineer"] ∧
    (∀ n : Nat, (seed_jobs^[n] []).length ≤ 3) := by
  have key : ∀ n : Nat, seed_jobs^[n + 1] [] = seedRows := by
    intro n
    induction n with
    | zero => rfl
    | succ m ih =>
      rw [Function.iterate_succ_apply', ih]
      rfl
  refine ⟨key, by decide, fun n => ?_⟩
  cases n with
  | zero => simp
  | succ m => rw [key m]; decide

/-- Claim C1, counterexample: a request whose `job_id` is the integer 0 —
present, non-empty and non-null, so outside the claim's "absent, empty, or
null" condition — is nevertheless answered with the 400 validation error.
The claim's "only if" direction fails on the code. -/
theorem apply_validation_iff_counterexample :
    apply_job { job_id := PyVal.int 0, name := Option.some "A",
                email := Option.some "a@x.com", phone := Option.none,
                experience := PyVal.null, skills := Option.none } [] =
      (HttpResp.json 400 false "Required fields missing", []) ∧
    (absentEmptyNull (PyVal.int 0)
      || absentEmptyNullS (Option.some "A")
      || absentEmptyNullS (Option.some "a@x.com")) = false := by decide

/-- Claim C1 (amended): the apply operation answers with the 400
`"Required fields missing"` body and leaves the table unchanged if and only
if the experience coercion of line 163 succeeded (it runs first, and raises
out of the route otherwise) and `job_id`, `name` or `email` is falsy —
absent, null, the empty string, or, for `job_id`, the integer 0. -/
theorem apply_validation_iff (req : ApplyReq) (apps : List Application) :
    apply_job req apps =
        (HttpResp.json 400 false "Required fields missing", apps) ↔
      ((∃ e, pyToInt (pyOr req.experience (PyVal.int 0)) = Except.ok e) ∧
        (req.job_id.truthy = false ∨ optTruthy req.name = false ∨
          optTruthy req.email = false)) := by
  cases h : pyToInt (pyOr req.experience (PyVal.int 0)) with
  | error u => simp [apply_job, h]
  | ok v =>
    by_cases hc : (!req.job_id.truthy || !optTruthy req.name
        || !optTruthy req.email) = true
    · simp only [apply_job, h, hc, if_true]
      simp only [Bool.or_eq_true, Bool.not_eq_true'] at hc
      simp only [Prod.mk.injEq, and_true, true_iff]
      exact ⟨⟨v, rfl⟩, by tauto⟩
    · simp only [apply_job, h, hc, if_false, Bool.false_eq_true]
      simp only [Bool.or_eq_true, Bool.not_eq_true'] at hc
      push_neg at hc
      constructor
      · intro habs
        exact absurd (congrArg Prod.fst habs) (by simp)
      · rintro ⟨-, hfal⟩
        rcases hfal with hf | hf | hf <;> simp [hf] at hc

/-- Claim C4, counterexample: with the non-numeric experience `"five"` the
apply operation does not complete normally storing experience 0 — line 163
raises `ValueError` before anything else happens (an HTTP 500), and no row
is created. -/
theorem apply_experience_counterexample :
    apply_job { job_id := PyVal.int 2, name := Option.some "Cy",
                email := Option.some "cy@z.org", phone := Option.none,
                experience := PyVal.str "five", skills := Option.none } [] =
      (HttpResp.crash, []) ∧
    HttpResp.crash ≠ HttpResp.json 200 true
      "Application submitted successfully!" := by decide

/-- Claim C4 (amended): the experience field is coerced by
`int(data.get("experience") or 0)` — a falsy field (absent, null, `""`, 0)
coerces to 0, an integer to itself, a numeric string to its value, and the
coerced value is exactly what an inserted row stores; but a non-numeric
non-empty string raises an uncaught `ValueError` (HTTP 500) and the
operation does not complete: the table is left unchanged. -/
theorem apply_experience_coercion (req : ApplyReq) (apps : List Application) :
    (req.experience.truthy = false →
      pyToInt (pyOr req.experience (PyVal.int 0)) = Except.ok 0) ∧
    (∀ n : Int, req.experience = PyVal.int n →
      pyToInt (pyOr req.experience (PyVal.int 0)) = Except.ok n) ∧
    (∀ s n, req.experience = PyVal.str s → pyParseInt s = Option.some n →
      pyToInt (pyOr req.experience (PyVal.int 0)) = Except.ok n) ∧
    (∀ s, req.experience = PyVal.str s → s ≠ "" →
      pyParseInt s = Option.none →
      apply_job req apps = (HttpResp.crash, apps)) ∧
    (∀ (e : Int) (row : Application),
      pyToInt (pyOr req.experience (PyVal.int 0)) = Except.ok e →
      (apply_job req apps).2 = apps ++ [row] → row.experience = e) := by
  refine ⟨?_, ?_, ?_, ?_, ?_⟩
  · intro hf
    simp [pyOr, hf, pyToInt]
  · intro n hn
    by_cases h0 : n = 0 <;> simp [pyOr, hn, PyVal.truthy, h0, pyToInt]
  · intro s n hs hp
    have hne : s ≠ "" := by
      intro h
      rw [h] at hp
      simp [pyParseInt, pyStrip] at hp
    simp [pyOr, hs, PyVal.truthy, hne, pyToInt, hp]
  · intro s hs hne hp
    have : pyToInt (pyOr req.experience (PyVal.int 0)) = Except.error () := by
      simp [pyOr, hs, PyVal.truthy, hne, pyToInt, hp]
    simp [apply_job, this]
  · intro e row he happ
    simp only [apply_job, he] at happ
    by_cases hc : (!req.job_id.truthy || !optTruthy req.name
        || !optTruthy req.email) = true
    · rw [if_pos hc] at happ
      simp at happ
    · rw [if_neg hc] at happ
      simp only [List.append_cancel_left_eq, List.cons.injEq, and_true] at happ
      rw [← happ]

/-- Claim C5, counterexample: `job_id = 0` with non-empty name and email is
a request whose three fields are all present and non-empty, yet no row is
inserted and the response is the 400 error, not the success confirmation. -/
theorem apply_insert_counterexample :
    apply_job { job_id := PyVal.int 0, name := Option.some "Bea",
                email := Option.some "bea@w.net", phone := Option.none,
                experience := PyVal.null, skills := Option.none } [] =
      (HttpResp.json 400 false "Required fields missing", []) := by decide

/-- Claim C5 (amended): for every request whose `job_id`, `name` and `email`
are truthy (present, non-null, non-empty and, for `job_id`, non-zero) and
whose experience field coerces to an integer, apply appends exactly one new
row — with `status = "Applied"`, the coerced experience, and `skills`
defaulting to `""` when absent — and returns the success body, which carries
no generated id. -/
theorem apply_insert_success (req : ApplyReq) (apps : List Application)
    (hj : req.job_id.truthy = true) (hn : optTruthy req.name = true)
    (he : optTruthy req.email = true) (e : Int)
    (hc : pyToInt (pyOr req.experience (PyVal.int 0)) = Except.ok e) :
    ∃ row : Application,
      apply_job req apps =
        (HttpResp.json 200 true "Application submitted successfully!",
          apps ++ [row]) ∧
      row.status = "Applied" ∧ row.experience = e ∧
      row.name = req.name ∧ row.email = req.email ∧
      (req.skills = Option.none → row.skills = "") := by
  refine ⟨{ id := nextId apps, job_id := intAffinity req.job_id,
            name := req.name, email := req.email, phone := req.phone,
            experience := e, skills := pyOrS req.skills "",
            status := "Applied" }, ?_, rfl, rfl, rfl, rfl, fun hs => ?_⟩
  · simp only [apply_job, hc, hj, hn, he, Bool.not_true, Bool.or_self,
      Bool.false_or, Bool.or_false, if_false, Bool.false_eq_true]
  · simp [pyOrS, hs]

/-- Claim C5 witness: the spec's own example — `job_id = 1`, `name = "A"`,
`email = "a@x.com"` and nothing else — succeeds, and the stored row has
`status = "Applied"`, `experience = 0`, `skills = ""`. -/
theorem apply_insert_success_witness :
    ∃ row : Application,
      apply_job { job_id := PyVal.int 1, name := Option.some "A",
                  email := Option.some "a@x.com", phone := Option.none,
                  experience := PyVal.null, skills := Option.none } [] =
        (HttpResp.json 200 true "Application submitted successfully!",
          [] ++ [row]) ∧
      row.status = "Applied" ∧ row.experience = 0 ∧
      row.name = Option.some "A" ∧ row.email = Option.some "a@x.com" ∧
      (Option.none = (Option.none : Option String) → row.skills = "") :=
  apply_insert_success
    { job_id := PyVal.int 1, name := Option.some "A",
      email := Option.some "a@x.com", phone := Option.none,
      experience := PyVal.null, skills := Option.none } [] rfl rfl rfl 0 rfl

/-- Claim C6, counterexample: the empty string is a present email — the
request body carries the field — yet the operation answers with the 400
`"Email is required"` error instead of a success body. -/
theorem my_applications_counterexample :
    my_applications (Option.some "") [] [] =
      MyAppsResp.err 400 false "Email is required" ∧
    (Option.some "" : Option String) ≠ Option.none := by decide

/-- Claim C6 (amended): the my-applications operation returns the 400
`"Email is required"` body exactly when the email field is falsy — absent,
null or empty — and for every non-empty email it returns the success body
with the inner join `{application_id, job_title, status}` on `job_id`; an
email with zero matching applications yields the empty sequence with
success, not an error. -/
theorem my_applications_spec (emailField : Option String)
    (apps : List Application) (jobs : List Job) :
    (my_applications emailField apps jobs =
        MyAppsResp.err 400 false "Email is required" ↔
      optTruthy emailField = false) ∧
    (∀ e : String, emailField = Option.some e → e ≠ "" →
      my_applications emailField apps jobs =
        MyAppsResp.ok true (specJoin e apps jobs)) ∧
    (∀ e : String, e ≠ "" → (∀ a ∈ apps, a.email ≠ Option.some e) →
      my_applications (Option.some e) apps jobs = MyAppsResp.ok true []) := by
  refine ⟨?_, fun e hef hne => ?_, fun e hne hnone => ?_⟩
  · by_cases h : optTruthy emailField = true
    · simp [my_applications, h]
    · simp only [Bool.not_eq_true] at h
      simp [my_applications, h]
  · subst hef
    have ht : optTruthy (Option.some e) = true := by
      simp [optTruthy, hne]
    simp [my_applications, ht, specJoin]
  · have ht : optTruthy (Option.some e) = true := by
      simp [optTruthy, hne]
    have hfil : apps.filter (fun a => a.email == Option.some e) = [] := by
      rw [List.filter_eq_nil_iff]
      intro a ha
      simp [hnone a ha]
    simp [my_applications, ht, hfil]

/-- Claim C10, counterexample: a request with `job_id = 0`, non-empty name
and email but the non-numeric experience `"three"` is not rejected with the
400 body — line 163 raises before the check runs, an uncaught `ValueError`
(HTTP 500), so the claim's universal statement fails. -/
theorem apply_zero_jobid_counterexample :
    apply_job { job_id := PyVal.int 0, name := Option.some "Bo",
                email := Option.some "bo@y.org", phone := Option.none,
                experience := PyVal.str "three", skills := Option.none } [] =
      (HttpResp.crash, []) ∧
    HttpResp.crash ≠ HttpResp.json 400 false "Required fields missing" := by
  decide

/-- Claim C10 (amended): for every apply request with `job_id` equal to the
integer 0, non-empty name and email, and an experience field that coerces
(it is absent or numeric — otherwise line 163 raises first), the operation
is rejected with the 400 `"Required fields missing"` body and no row is
inserted: presence is checked by Python truthiness, and `0` is falsy. -/
theorem apply_zero_jobid_rejected (name email : String) (hn : name ≠ "")
    (he : email ≠ "") (phone skills : Option String) (expv : PyVal) (e : Int)
    (hc : pyToInt (pyOr expv (PyVal.int 0)) = Except.ok e)
    (apps : List Application) :
    apply_job { job_id := PyVal.int 0, name := Option.some name,
                email := Option.some email, phone := phone,
                experience := expv, skills := skills } apps =
      (HttpResp.json 400 false "Required fields missing", apps) := by
  simp [apply_job, hc, PyVal.truthy]

/-- Claim C10 witness: the concrete request `job_id = 0`, `name = "A"`,
`email = "a@x.com"`, no experience field, is rejected with 400 and the
empty table stays empty. -/
theorem apply_zero_jobid_rejected_witness :
    apply_job { job_id := PyVal.int 0, name := Option.some "A",
                email := Option.some "a@x.com", phone := Option.none,
                experience := PyVal.null, skills := Option.none } [] =
      (HttpResp.json 400 false "Required fields missing", []) :=
  apply_zero_jobid_rejected "A" "a@x.com" (by decide) (by decide)
    Option.none Option.none PyVal.null 0 rfl []

/-- An application row used to exercise the dangling-`job_id` behaviour:
its `job_id` 99 matches no seeded job. -/
def danglingApp : Application :=
  { id := 7, job_id := PyVal.int 99, name := Option.some "A",
    email := Option.some "a@x.com", phone := Option.none, experience := 0,
    skills := "", status := "Applied" }

/-- Claim C9: an application row whose `job_id` matches no job id is
silently omitted from every my-applications result (the lookup is an inner
join on `job_id`), yet apply accepts such a `job_id` — any non-zero integer
— and stores the row with it.  The id-uniqueness hypothesis reflects the
AUTOINCREMENT primary key. -/
theorem dangling_application_omitted (e : String) (apps : List Application)
    (jobs : List Job) (a : Application) (ha : a ∈ apps)
    (hid : ∀ a' ∈ apps, a'.id = a.id → a' = a)
    (hnj : ∀ j ∈ jobs, jobIdEq a.job_id j.id = false) :
    (∀ r ∈ respApps (my_applications (Option.some e) apps jobs),
      r.application_id ≠ a.id) ∧
    (∀ (n : Int) (apps' : List Application), n ≠ 0 →
      ∃ row : Application,
        apply_job { job_id := PyVal.int n, name := Option.some "A",
                    email := Option.some "a@x.com", phone := Option.none,
                    experience := PyVal.null,
                    skills := Option.none } apps' =
          (HttpResp.json 200 true "Application submitted successfully!",
            apps' ++ [row]) ∧
        row.job_id = PyVal.int n) := by
  constructor
  · intro r hr heq
    by_cases ht : optTruthy (Option.some e) = true
    · simp only [my_applications, ht, Bool.not_true, Bool.false_eq_true,
        if_false, respApps] at hr
      rw [List.mem_flatMap] at hr
      obtain ⟨a', ha', hr'⟩ := hr
      rw [List.mem_filter] at ha'
      rw [List.mem_map] at hr'
      obtain ⟨j, hj, hrj⟩ := hr'
      rw [List.mem_filter] at hj
      have hida : a' = a := by
        apply hid a' ha'.1
        rw [← heq, ← hrj]
      rw [hida] at hj
      exact absurd hj.2 (by simp [hnj j hj.1])
    · simp only [Bool.not_eq_true] at ht
      simp [my_applications, ht, respApps] at hr
  · intro n apps' hn
    refine ⟨{ id := nextId apps', job_id := intAffinity (PyVal.int n),
              name := Option.some "A", email := Option.some "a@x.com",
              phone := Option.none, experience := 0, skills := pyOrS Option.none "",
              status := "Applied" }, ?_, by simp [intAffinity]⟩
    have hj : (PyVal.int n).truthy = true := by
      simp [PyVal.truthy, hn]
    simp only [apply_job, pyOr, PyVal.truthy, pyToInt, hj]
    simp [optTruthy, hn]

/-- Claim C9 witness: the row `danglingApp` (stored `job_id` 99, matching no
seeded job) never surfaces in the my-applications result for its email, and
apply accepts the nonexistent `job_id` 99. -/
theorem dangling_application_omitted_witness :
    (∀ r ∈ respApps (my_applications (Option.some "a@x.com") [danglingApp]
        seedRows), r.application_id ≠ danglingApp.id) ∧
    (∀ (n : Int) (apps' : List Application), n ≠ 0 →
      ∃ row : Application,
        apply_job { job_id := PyVal.int n, name := Option.some "A",
                    email := Option.some "a@x.com", phone := Option.none,
                    experience := PyVal.null,
                    skills := Option.none } apps' =
          (HttpResp.json 200 true "Application submitted successfully!",
            apps' ++ [row]) ∧
        row.job_id = PyVal.int n) :=
  dangling_application_omitted "a@x.com" [danglingApp] seedRows danglingApp
    (by decide) (by decide) (by decide)

end SmartHire

